import Mathlib

/-
Verification of the dnf_ui concurrent package-index access layer.

This file gives a shallow embedding, in Lean 4, of the core of the
repository (BaseManager, the GTask completion handlers in widgets.cpp,
the pending-action set, the search cache and the transaction helpers in
dnf_backend.cpp), and proves the specified properties about it.

Conventions of the embedding:
- C++ `uint64_t` counters are `Nat` reduced modulo `2 ^ 64` wherever the
  source could overflow.
- C++ `std::string` is Lean `String`; byte-wise `::tolower` is modelled
  on `Char` (ASCII range only, identity elsewhere, as in the C locale).
- The external libdnf5 collaborator (`Goal`, `Transaction`,
  `PackageQuery`) is modelled by explicit oracles/data: a
  `ResolveOutcome` record supplies what the library would answer, a
  `List Package` supplies the available-package universe, and the
  semantics of `QueryCmp::EQ` / `QueryCmp::CONTAINS` name filters are
  exact string equality / substring containment, per the library's
  documented contract.
- Functions that run on the GTK main loop are modelled as pure state
  transformers; the observable side effects a handler performs
  (rendering a list, storing into the search cache, setting a status
  message) are collected in an explicit effect record.
-/

namespace DnfUi

/-- Modulus of the C++ `uint64_t` generation counter. -/
def UINT64_MOD : Nat := 2 ^ 64

/-- State of `BaseManager` (src/base_manager.cpp): the atomic generation
counter (a `uint64_t`, held modulo `2 ^ 64`) and whether `base_ptr`
currently holds a built handle. -/
structure BaseManagerState where
  generation : Nat
  base_ptr : Bool
deriving DecidableEq

/-- Embedding of `BaseManager::rebuild` (src/base_manager.cpp lines 65-80): under the
exclusive lock it first does `generation.fetch_add(1)`, then
`base_ptr.reset()`, then calls `ensure_base_initialized()`, which either
installs a freshly built handle or throws (the exception propagates with
`base_ptr` left empty).  `buildOk` is the oracle for whether
`ensure_base_initialized` succeeds; in both cases the generation has
already been bumped. -/
def BaseManager.rebuild (s : BaseManagerState) (buildOk : Bool) : BaseManagerState :=
  { generation := (s.generation + 1) % UINT64_MOD,
    base_ptr := buildOk }

/-- Result delivered by a background `GTask` worker: either the package
list (`g_task_return_pointer`) or an error (`g_task_return_error`). -/
inductive TaskResult where
  | ok (packages : List String)
  | err (msg : String)
deriving DecidableEq

/-- Observable effects of a completion handler on the UI thread:
`rendered` is the argument of a `fill_listbox_async` call (the render
callback), `cacheStore` a store into `g_search_cache`, `status` a
`set_status` message/colour pair. `none` means the handler did not
perform that effect. -/
structure CompletionEffect where
  rendered : Option (List String)
  cacheStore : Option (String × List String)
  status : Option (String × String)
deriving DecidableEq

/-- Embedding of `on_list_task_finished` (src/widgets.cpp lines 317-366): if the
cancellable fired, return silently; if the generation snapshot taken at
dispatch differs from `BaseManager::instance().current_generation()`,
drop the stale result silently; otherwise render the package list (or
show the error).  `dispatchGeneration` is the `ListTaskData.generation`
snapshot (always attached at dispatch in `on_list_button_clicked`);
`currentGeneration` is the coordinator's counter when the callback
runs. Spinner release and control re-enabling happen on every path and
are not part of the effect record. -/
def on_list_task_finished (cancelled : Bool) (dispatchGeneration currentGeneration : Nat)
    (result : TaskResult) : CompletionEffect :=
  if cancelled then
    { rendered := none, cacheStore := none, status := none }
  else if dispatchGeneration ≠ currentGeneration then
    { rendered := none, cacheStore := none, status := none }
  else
    match result with
    | .ok packages =>
        { rendered := some packages, cacheStore := none,
          status := some ("Found " ++ toString packages.length ++ " installed packages.", "green") }
    | .err msg =>
        { rendered := none, cacheStore := none, status := some (msg, "red") }

/-- Embedding of `on_search_task_finished` (src/widgets.cpp lines 392-446): same
cancellation and stale-generation gates as the list handler; on the live
path it stores the result under the dispatch-time cache key, renders the
list and reports the count. -/
def on_search_task_finished (cancelled : Bool) (dispatchGeneration currentGeneration : Nat)
    (cacheKey : String) (result : TaskResult) : CompletionEffect :=
  if cancelled then
    { rendered := none, cacheStore := none, status := none }
  else if dispatchGeneration ≠ currentGeneration then
    { rendered := none, cacheStore := none, status := none }
  else
    match result with
    | .ok packages =>
        { rendered := some packages, cacheStore := some (cacheKey, packages),
          status := some ("Found " ++ toString packages.length ++ " packages.", "green") }
    | .err msg =>
        { rendered := none, cacheStore := none, status := some (msg, "red") }

/-- Embedding of `PendingAction::Type` (widgets.hpp). -/
inductive PendingActionType where
  | INSTALL
  | REMOVE
deriving DecidableEq

/-- Embedding of `PendingAction` (widgets.hpp): a user-marked install/remove intent. -/
structure PendingAction where
  type : PendingActionType
  nevra : String
deriving DecidableEq

/-- Embedding of `remove_pending_action` (src/widgets.cpp lines 104-114): erase the
first entry whose `nevra` matches, if any. -/
def remove_pending_action : List PendingAction → String → List PendingAction
  | [], _ => []
  | a :: rest, nevra =>
      if a.nevra = nevra then rest
      else a :: remove_pending_action rest nevra

/-- Embedding of `get_pending_action_type` (src/widgets.cpp lines 119-129): type of
the first entry whose `nevra` matches, if any. -/
def get_pending_action_type : List PendingAction → String → Option PendingActionType
  | [], _ => none
  | a :: rest, nevra =>
      if a.nevra = nevra then some a.type
      else get_pending_action_type rest nevra

/-- Toggle logic of `on_install_button_clicked` (src/widgets.cpp lines
766-780): if the package is already pending INSTALL, unmark it;
otherwise drop any existing entry for it and append a pending INSTALL. -/
def toggle_install (pending : List PendingAction) (pkg : String) : List PendingAction :=
  match get_pending_action_type pending pkg with
  | some PendingActionType.INSTALL => remove_pending_action pending pkg
  | _ => remove_pending_action pending pkg ++ [⟨PendingActionType.INSTALL, pkg⟩]

/-- Toggle logic of `on_remove_button_clicked` (src/widgets.cpp lines
819-833), symmetric to `toggle_install`. -/
def toggle_remove (pending : List PendingAction) (pkg : String) : List PendingAction :=
  match get_pending_action_type pending pkg with
  | some PendingActionType.REMOVE => remove_pending_action pending pkg
  | _ => remove_pending_action pending pkg ++ [⟨PendingActionType.REMOVE, pkg⟩]

/-- Dispatch on the two toggle entry points. -/
def toggle (k : PendingActionType) (pending : List PendingAction) (pkg : String) :
    List PendingAction :=
  match k with
  | PendingActionType.INSTALL => toggle_install pending pkg
  | PendingActionType.REMOVE => toggle_remove pending pkg

/-- Entries of the pending list for one spec (used to state the
at-most-one-per-spec invariant). -/
def nevra_entries (pending : List PendingAction) (x : String) : List PendingAction :=
  pending.filter (fun a => a.nevra == x)

/-- Run a sequence of toggle operations starting from the program's
initial (empty) pending set. -/
def apply_toggles (ops : List (PendingActionType × String)) : List PendingAction :=
  ops.foldl (fun s op => toggle op.1 s op.2) []

/-- What the external libdnf5 `Goal`/`Transaction` would answer for one
resolve/run cycle: whether `get_problems()` reports a problem, the
resolve logs, the resolved transaction package set, and the outcome of
`run()`. -/
structure ResolveOutcome where
  hasProblems : Bool
  resolveLogs : List String
  transactionPackages : List String
  runSuccess : Bool
  runResultCode : Int
  runProblems : List String
deriving DecidableEq

/-- Calls `apply_transaction` makes into the coordinator / package
index, in order. -/
inductive BackendEvent where
  | acquireWrite
  | addRpmInstall (spec : String)
  | addRpmRemove (spec : String)
  | resolve
  | download
  | run
deriving DecidableEq

/-- Result of `apply_transaction`: the returned bool, the `error_out`
string, and the trace of backend calls made. -/
structure ApplyResult where
  ok : Bool
  error_out : String
  events : List BackendEvent
deriving DecidableEq

/-- Embedding of `format_specs` (src/dnf_backend.cpp lines 358-383): `"<count>"` if
the list is empty, else `"<count> (s1, s2, s3, ...)"` with a preview of
at most `min(size, 3)` specs and a trailing `", ..."` when truncated. -/
def format_specs (specs : List String) : String :=
  if specs.isEmpty then toString specs.length
  else
    toString specs.length ++ " (" ++
      String.intercalate ", " (specs.take (min specs.length 3)) ++
      (if min specs.length 3 < specs.length then ", ..." else "") ++ ")"

/-- The diagnostic format as the specification words it: the spec count,
then when non-empty a preview of at most 3 specs, followed by an
ellipsis exactly when more than 3 specs were supplied.  Used only to
compare `format_specs` against the spec text. -/
def format_specs_spec (specs : List String) : String :=
  toString specs.length ++
    (if specs.isEmpty then ""
     else " (" ++ String.intercalate ", " (specs.take 3) ++
       (if 3 < specs.length then ", ..." else "") ++ ")")

/-- Embedding of `apply_transaction` (src/dnf_backend.cpp lines 385-462): check
`geteuid() != 0` first, then the empty-batch case, then acquire the
write lock, feed all specs into a `Goal`, resolve, and inspect the
outcome (problems / empty resolved set / run failure).  `euid` is the
caller's effective uid; `outcome` is the oracle for what libdnf5
answers. The returned `events` trace records every call made into the
coordinator and the package index. -/
def apply_transaction (euid : Nat) (install_nevras remove_nevras : List String)
    (outcome : ResolveOutcome) : ApplyResult :=
  if euid ≠ 0 then
    { ok := false, error_out := "Must be run as root to perform transactions.", events := [] }
  else if install_nevras.isEmpty && remove_nevras.isEmpty then
    { ok := false, error_out := "No packages specified in transaction.", events := [] }
  else
    let events0 :=
      [BackendEvent.acquireWrite] ++
        install_nevras.map BackendEvent.addRpmInstall ++
        remove_nevras.map BackendEvent.addRpmRemove ++ [BackendEvent.resolve]
    if outcome.hasProblems then
      { ok := false,
        error_out := "Unable to resolve transaction.\n" ++
          String.join (outcome.resolveLogs.map (fun log => "  " ++ log ++ "\n")),
        events := events0 }
    else if outcome.transactionPackages.isEmpty then
      { ok := false,
        error_out := "No packages in transaction (nothing to do).\n" ++
          "Install specs: " ++ format_specs install_nevras ++ "\n" ++
          "Remove specs: " ++ format_specs remove_nevras ++ "\n",
        events := events0 }
    else if outcome.runSuccess then
      { ok := true, error_out := "",
        events := events0 ++ [BackendEvent.download, BackendEvent.run] }
    else
      { ok := false,
        error_out := "Transaction failed (code " ++ toString outcome.runResultCode ++ ").\n" ++
          String.join (outcome.runProblems.map (fun msg => "  " ++ msg ++ "\n")),
        events := events0 ++ [BackendEvent.download, BackendEvent.run] }

/-- The widget state relevant to the apply flow: the pending-action
vector (`SearchWidgets::pending`). -/
structure WidgetsState where
  pending : List PendingAction
deriving DecidableEq

/-- Install side of the split `on_apply_button_clicked` performs over
the pending vector. -/
def pending_install_specs (pending : List PendingAction) : List String :=
  (pending.filter (fun a => a.type == PendingActionType.INSTALL)).map (fun a => a.nevra)

/-- Remove side of the split (everything not marked INSTALL). -/
def pending_remove_specs (pending : List PendingAction) : List String :=
  (pending.filter (fun a => !(a.type == PendingActionType.INSTALL))).map (fun a => a.nevra)

/-- Embedding of `on_apply_button_clicked` (src/widgets.cpp lines 860-938), end to
end: early-return on an empty pending set; otherwise split the pending
vector, run `apply_transaction` on a worker, and in the completion
callback clear the pending vector only when the task reported success
(and the cancellable did not fire).  `cancelled` is whether the
cancellable fired before completion. -/
def on_apply_button_clicked (widgets : WidgetsState) (euid : Nat)
    (outcome : ResolveOutcome) (cancelled : Bool) : WidgetsState :=
  if widgets.pending.isEmpty then widgets
  else
    let result := apply_transaction euid (pending_install_specs widgets.pending)
        (pending_remove_specs widgets.pending) outcome
    if cancelled then widgets
    else if result.ok then { widgets with pending := [] }
    else widgets

/-- Embedding of `cache_key_for` (src/widgets.cpp lines 267-275): concatenate a mode
prefix for each flag with the literal term, no case folding, no
trimming. -/
def cache_key_for (g_search_in_description g_exact_match : Bool) (term : String) : String :=
  (if g_search_in_description then "desc:" else "name:") ++
    (if g_exact_match then "exact:" else "contains:") ++ term

/-- Assignment `g_search_cache[key] = value` on a `std::map` modelled as an
association list: overwrite the entry if the key is present, else
append. -/
def cache_store : List (String × List String) → String → List String →
    List (String × List String)
  | [], key, value => [(key, value)]
  | (k, v) :: rest, key, value =>
      if k = key then (k, value) :: rest
      else (k, v) :: cache_store rest key value

/-- Lookup `g_search_cache.find(key)` modelled on the association list. -/
def cache_lookup (cache : List (String × List String)) (key : String) :
    Option (List String) :=
  match cache.find? (fun e => e.1 == key) with
  | some e => some e.2
  | none => none

/-- One available package as `search_available_packages` consumes it:
its name, its NEVRA (what the function returns), and its description. -/
structure Package where
  name : String
  nevra : String
  description : String
deriving DecidableEq

/-- Byte-wise `::tolower` in the C locale: lower-case ASCII letters,
identity elsewhere. -/
def tolower_char (c : Char) : Char :=
  if 'A' ≤ c ∧ c ≤ 'Z' then Char.ofNat (c.toNat + 32) else c

/-- Lowercasing `std::transform(s.begin(), s.end(), s.begin(), ::tolower)`. -/
def tolower_string (s : String) : String :=
  ⟨s.data.map tolower_char⟩

/-- Embedding of `search_available_packages` (src/dnf_backend.cpp lines 116-161) over
an explicit universe of available packages (the query after
`filter_available()`).  In description mode the source lowercases the
pattern, the description and the name and compares manually; in
name-only mode it delegates to `filter_name` with `QueryCmp::EQ` or
`QueryCmp::CONTAINS` (modelled as case-sensitive equality / substring
containment on the name).  The two globals
`g_search_in_description` / `g_exact_match` are passed explicitly. -/
def search_available_packages (available : List Package)
    (g_search_in_description g_exact_match : Bool) (pattern : String) : List String :=
  if g_search_in_description then
    let pattern_lower := tolower_string pattern
    (available.filter (fun pkg =>
        let desc := tolower_string pkg.description
        let name := tolower_string pkg.name
        if g_exact_match then name == pattern_lower
        else decide (pattern_lower.data <:+: desc.data) ||
          decide (pattern_lower.data <:+: name.data))).map
      (fun pkg => pkg.nevra)
  else
    if g_exact_match then
      (available.filter (fun pkg => pkg.name == pattern)).map (fun pkg => pkg.nevra)
    else
      (available.filter (fun pkg => decide (pattern.data <:+: pkg.name.data))).map
        (fun pkg => pkg.nevra)

end DnfUi

namespace DnfUi

/- Helper lemmas shared by several claim theorems. -/

theorem nevra_entries_cons (a : PendingAction) (rest : List PendingAction) (x : String) :
    nevra_entries (a :: rest) x =
      if a.nevra = x then a :: nevra_entries rest x else nevra_entries rest x := by
  by_cases h : a.nevra = x <;> simp [nevra_entries, List.filter_cons, h]

theorem nevra_entries_append (s t : List PendingAction) (x : String) :
    nevra_entries (s ++ t) x = nevra_entries s x ++ nevra_entries t x := by
  simp [nevra_entries, List.filter_append]

theorem nevra_entries_remove (s : List PendingAction) (x : String) :
    nevra_entries (remove_pending_action s x) x = (nevra_entries s x).drop 1 := by
  induction s with
  | nil => rfl
  | cons a rest ih =>
      by_cases h : a.nevra = x <;>
        simp [remove_pending_action, nevra_entries_cons, h, ih]

theorem nevra_entries_remove_ne (s : List PendingAction) (x y : String) (h : ¬ y = x) :
    nevra_entries (remove_pending_action s y) x = nevra_entries s x := by
  induction s with
  | nil => rfl
  | cons a rest ih =>
      have hxy : ¬ x = y := fun e => h e.symm
      by_cases ha : a.nevra = y <;> by_cases hax : a.nevra = x
      · exact absurd (ha.symm.trans hax) h
      · simp [remove_pending_action, ha, nevra_entries_cons, hax, h, hxy]
      · simp [remove_pending_action, ha, nevra_entries_cons, hax, ih, h, hxy]
      · simp [remove_pending_action, ha, nevra_entries_cons, hax, ih, h, hxy]

theorem get_pending_action_type_eq (s : List PendingAction) (x : String) :
    get_pending_action_type s x = (nevra_entries s x).head?.map PendingAction.type := by
  induction s with
  | nil => rfl
  | cons a rest ih =>
      by_cases h : a.nevra = x <;>
        simp [get_pending_action_type, nevra_entries_cons, h, ih]

theorem nevra_entries_toggle_self (k : PendingActionType) (s : List PendingAction)
    (x : String) :
    nevra_entries (toggle k s x) x =
      if (nevra_entries s x).head?.map PendingAction.type = some k
      then (nevra_entries s x).drop 1
      else (nevra_entries s x).drop 1 ++ [⟨k, x⟩] := by
  have hsingle : ∀ k0 : PendingActionType,
      nevra_entries [(⟨k0, x⟩ : PendingAction)] x = [⟨k0, x⟩] := by
    intro k0; simp [nevra_entries_cons, nevra_entries]
  cases k <;> rcases hg : get_pending_action_type s x with _ | t
  · have hh : (nevra_entries s x).head?.map PendingAction.type = none := by
      rw [← get_pending_action_type_eq]; exact hg
    simp [toggle, toggle_install, hg, nevra_entries_append, nevra_entries_remove, hsingle, hh]
  · have hh : (nevra_entries s x).head?.map PendingAction.type = some t := by
      rw [← get_pending_action_type_eq]; exact hg
    cases t <;>
      simp [toggle, toggle_install, hg, nevra_entries_append, nevra_entries_remove, hsingle, hh]
  · have hh : (nevra_entries s x).head?.map PendingAction.type = none := by
      rw [← get_pending_action_type_eq]; exact hg
    simp [toggle, toggle_remove, hg, nevra_entries_append, nevra_entries_remove, hsingle, hh]
  · have hh : (nevra_entries s x).head?.map PendingAction.type = some t := by
      rw [← get_pending_action_type_eq]; exact hg
    cases t <;>
      simp [toggle, toggle_remove, hg, nevra_entries_append, nevra_entries_remove, hsingle, hh]

theorem nevra_entries_toggle_ne (k : PendingActionType) (s : List PendingAction)
    (x y : String) (h : ¬ y = x) :
    nevra_entries (toggle k s y) x = nevra_entries s x := by
  have hsingle : ∀ k0 : PendingActionType,
      nevra_entries [(⟨k0, y⟩ : PendingAction)] x = [] := by
    intro k0; simp [nevra_entries_cons, nevra_entries, h]
  cases k <;> rcases hg : get_pending_action_type s y with _ | t
  · simp [toggle, toggle_install, hg, nevra_entries_append, nevra_entries_remove_ne _ _ _ h,
      hsingle]
  · cases t <;>
      simp [toggle, toggle_install, hg, nevra_entries_append,
        nevra_entries_remove_ne _ _ _ h, hsingle]
  · simp [toggle, toggle_remove, hg, nevra_entries_append, nevra_entries_remove_ne _ _ _ h,
      hsingle]
  · cases t <;>
      simp [toggle, toggle_remove, hg, nevra_entries_append,
        nevra_entries_remove_ne _ _ _ h, hsingle]

theorem toggle_preserves_at_most_one (s : List PendingAction)
    (hs : ∀ x, (nevra_entries s x).length ≤ 1) (k : PendingActionType) (y : String) :
    ∀ x, (nevra_entries (toggle k s y) x).length ≤ 1 := by
  intro x
  by_cases hxy : y = x
  · subst hxy
    rw [nevra_entries_toggle_self]
    have hy := hs y
    split
    · simp only [List.length_drop]
      omega
    · simp only [List.length_append, List.length_drop, List.length_cons, List.length_nil]
      omega
  · rw [nevra_entries_toggle_ne _ _ _ _ hxy]
    exact hs x

theorem apply_toggles_at_most_one (ops : List (PendingActionType × String)) :
    ∀ s : List PendingAction, (∀ x, (nevra_entries s x).length ≤ 1) →
      ∀ x, (nevra_entries (ops.foldl (fun t op => toggle op.1 t op.2) s) x).length ≤ 1 := by
  induction ops with
  | nil => intro s hs; simpa using hs
  | cons op rest ih =>
      intro s hs
      simp only [List.foldl_cons]
      exact ih _ (toggle_preserves_at_most_one s hs op.1 op.2)

theorem format_specs_eq_spec_format (specs : List String) :
    format_specs specs = format_specs_spec specs := by
  unfold format_specs format_specs_spec
  by_cases he : specs.isEmpty
  · simp [he]
  · rcases le_or_lt specs.length 3 with hle | hlt
    · have hmin : min specs.length 3 = specs.length := Nat.min_eq_left hle
      simp [he, hmin, List.take_length, List.take_of_length_le hle, Nat.lt_irrefl,
        Nat.not_lt.mpr hle, String.append_assoc]
    · have hmin : min specs.length 3 = 3 := Nat.min_eq_right (Nat.le_of_lt hlt)
      simp [he, hmin, hlt, String.append_assoc]

/-- C2: every call to `rebuild()` increments the generation counter by
exactly one, whether or not rebuilding the handle succeeds, for every
counter value representable without wrapping the `uint64_t`. -/
theorem rebuild_increments_generation (s : BaseManagerState) (buildOk : Bool)
    (h : s.generation + 1 < UINT64_MOD) :
    (BaseManager.rebuild s buildOk).generation = s.generation + 1 := by
  simp [BaseManager.rebuild, Nat.mod_eq_of_lt h]

theorem rebuild_increments_generation_witness :
    0 + 1 < UINT64_MOD ∧
      (BaseManager.rebuild ⟨0, true⟩ false).generation = 0 + 1 :=
  ⟨by decide, rebuild_increments_generation ⟨0, true⟩ false (by decide)⟩

/-- C1: a background read task (installed listing or available search)
whose completion callback observes a current generation different from
its dispatch-time snapshot never invokes its render callback: the
completion has no observable effect (no render, no cache store, no
status message). -/
theorem stale_generation_never_renders
    (cancelled : Bool) (dispatchGeneration currentGeneration : Nat)
    (cacheKey : String) (listResult searchResult : TaskResult)
    (h : currentGeneration ≠ dispatchGeneration) :
    on_list_task_finished cancelled dispatchGeneration currentGeneration listResult =
      { rendered := none, cacheStore := none, status := none } ∧
    on_search_task_finished cancelled dispatchGeneration currentGeneration cacheKey
        searchResult =
      { rendered := none, cacheStore := none, status := none } := by
  have h2 : dispatchGeneration ≠ currentGeneration := fun e => h e.symm
  cases cancelled <;>
    simp [on_list_task_finished, on_search_task_finished, h2]

theorem stale_generation_never_renders_witness :
    (1 : Nat) ≠ 0 ∧
      on_list_task_finished false 0 1 (TaskResult.ok ["bash-5.2-1.x86_64"]) =
        { rendered := none, cacheStore := none, status := none } :=
  ⟨by decide,
    (stale_generation_never_renders false 0 1 "name:contains:bash"
        (TaskResult.ok ["bash-5.2-1.x86_64"]) (TaskResult.ok []) (by decide)).1⟩

/-- C4: an unprivileged caller (effective uid not 0) gets the permission
error immediately and `apply_transaction` returns false with an empty
backend trace: no write lock, no goal construction, no resolve, no
apply step. -/
theorem apply_transaction_permission_error (euid : Nat)
    (install_nevras remove_nevras : List String) (outcome : ResolveOutcome)
    (h : euid ≠ 0) :
    apply_transaction euid install_nevras remove_nevras outcome =
      { ok := false, error_out := "Must be run as root to perform transactions.",
        events := [] } := by
  simp [apply_transaction, h]

theorem apply_transaction_permission_error_witness :
    (1000 : Nat) ≠ 0 ∧
      apply_transaction 1000 ["bash-5.2-1.x86_64"] [] ⟨false, [], ["bash"], true, 0, []⟩ =
        { ok := false, error_out := "Must be run as root to perform transactions.",
          events := [] } :=
  ⟨by decide,
    apply_transaction_permission_error 1000 ["bash-5.2-1.x86_64"] []
      ⟨false, [], ["bash"], true, 0, []⟩ (by decide)⟩

/-- C10: the privilege check precedes the empty-batch check: every
unprivileged caller receives the permission error (even with both spec
lists empty), and the empty-batch diagnostic is reachable only when the
effective uid is 0. -/
theorem privilege_checked_before_empty_batch (euid : Nat)
    (install_nevras remove_nevras : List String) (outcome : ResolveOutcome) :
    (euid ≠ 0 →
      (apply_transaction euid install_nevras remove_nevras outcome).error_out =
          "Must be run as root to perform transactions." ∧
        (apply_transaction euid install_nevras remove_nevras outcome).ok = false) ∧
    ((apply_transaction euid install_nevras remove_nevras outcome).error_out =
        "No packages specified in transaction." → euid = 0) := by
  constructor
  · intro h
    simp [apply_transaction, h]
  · intro h
    by_contra hne
    rw [apply_transaction_permission_error euid install_nevras remove_nevras outcome hne] at h
    exact absurd h (by decide)

theorem privilege_checked_before_empty_batch_witness :
    (7 : Nat) ≠ 0 ∧
      (apply_transaction 7 [] [] ⟨false, [], [], true, 0, []⟩).error_out =
        "Must be run as root to perform transactions." ∧
      (apply_transaction 7 [] [] ⟨false, [], [], true, 0, []⟩).ok = false :=
  ⟨by decide,
    (privilege_checked_before_empty_batch 7 [] [] ⟨false, [], [], true, 0, []⟩).1 (by decide)⟩

/-- C5: when the caller is privileged, the batch is non-empty, resolve
reports no problems and the resolved transaction package set is empty,
`apply_transaction` fails with the "nothing to do" diagnostic, which
echoes each side formatted exactly as the specification words it: the
spec count, a preview of at most 3 specs, and a ", ..." ellipsis exactly
when more than 3 specs were supplied on that side
(`format_specs_eq_spec_format` ties the code's `format_specs` to that
format for every spec list). -/
theorem nothing_to_do_diagnostic (install_nevras remove_nevras : List String)
    (outcome : ResolveOutcome)
    (hne : (install_nevras.isEmpty && remove_nevras.isEmpty) = false)
    (hp : outcome.hasProblems = false)
    (he : outcome.transactionPackages.isEmpty = true) :
    (apply_transaction 0 install_nevras remove_nevras outcome).ok = false ∧
    (apply_transaction 0 install_nevras remove_nevras outcome).error_out =
      "No packages in transaction (nothing to do).\n" ++
        "Install specs: " ++ format_specs_spec install_nevras ++ "\n" ++
        "Remove specs: " ++ format_specs_spec remove_nevras ++ "\n" ∧
    (∀ specs : List String, format_specs specs = format_specs_spec specs) := by
  refine ⟨?_, ?_, fun specs => format_specs_eq_spec_format specs⟩ <;>
    simp [apply_transaction, hne, hp, he, format_specs_eq_spec_format]

theorem nothing_to_do_diagnostic_witness :
    (apply_transaction 0 ["a-1-1.x86_64", "b-1-1.x86_64", "c-1-1.x86_64", "d-1-1.x86_64"] []
        ⟨false, [], [], true, 0, []⟩).ok = false ∧
    (apply_transaction 0 ["a-1-1.x86_64", "b-1-1.x86_64", "c-1-1.x86_64", "d-1-1.x86_64"] []
        ⟨false, [], [], true, 0, []⟩).error_out =
      "No packages in transaction (nothing to do).\n" ++
        "Install specs: " ++
          format_specs_spec ["a-1-1.x86_64", "b-1-1.x86_64", "c-1-1.x86_64", "d-1-1.x86_64"] ++
        "\n" ++
        "Remove specs: " ++ format_specs_spec [] ++ "\n" ∧
    (∀ specs : List String, format_specs specs = format_specs_spec specs) :=
  nothing_to_do_diagnostic ["a-1-1.x86_64", "b-1-1.x86_64", "c-1-1.x86_64", "d-1-1.x86_64"] []
    ⟨false, [], [], true, 0, []⟩ (by decide) (by decide) (by decide)

end DnfUi

namespace DnfUi

/-- C3: the pending-action set keeps at most one entry per distinct spec
across every toggle sequence from the initial empty set; toggling the
same kind twice for a spec that was not pending leaves it absent
(toggle-off), and toggling Install then Remove for such a spec leaves
exactly the single entry marking it for removal. -/
theorem pending_set_toggle_properties :
    (∀ (ops : List (PendingActionType × String)) (x : String),
        (nevra_entries (apply_toggles ops) x).length ≤ 1) ∧
    (∀ (s : List PendingAction) (k : PendingActionType) (x : String),
        nevra_entries s x = [] →
          nevra_entries (toggle k (toggle k s x) x) x = []) ∧
    (∀ (s : List PendingAction) (x : String),
        nevra_entries s x = [] →
          nevra_entries (toggle PendingActionType.REMOVE
              (toggle PendingActionType.INSTALL s x) x) x =
            [⟨PendingActionType.REMOVE, x⟩]) := by
  refine ⟨?_, ?_, ?_⟩
  · intro ops x
    exact apply_toggles_at_most_one ops [] (fun _ => by simp [nevra_entries]) x
  · intro s k x h
    have h1 : nevra_entries (toggle k s x) x = [⟨k, x⟩] := by
      rw [nevra_entries_toggle_self, h]
      simp
    rw [nevra_entries_toggle_self, h1]
    simp
  · intro s x h
    have h1 : nevra_entries (toggle PendingActionType.INSTALL s x) x =
        [⟨PendingActionType.INSTALL, x⟩] := by
      rw [nevra_entries_toggle_self, h]
      simp
    rw [nevra_entries_toggle_self, h1]
    simp

theorem pending_set_toggle_properties_witness :
    nevra_entries (toggle PendingActionType.REMOVE
        (toggle PendingActionType.INSTALL [] "bash-5.2-1.x86_64") "bash-5.2-1.x86_64")
      "bash-5.2-1.x86_64" = [⟨PendingActionType.REMOVE, "bash-5.2-1.x86_64"⟩] :=
  pending_set_toggle_properties.2.2 [] "bash-5.2-1.x86_64" (by decide)

/-- C6: whenever the apply operation fails (the worker's
`apply_transaction` returns false, for any of its failure branches), the
pending-action set survives the completion callback unchanged; the only
way the pending set changes is a successful, non-cancelled transaction,
and then it is cleared. -/
theorem apply_failure_preserves_pending (widgets : WidgetsState) (euid : Nat)
    (outcome : ResolveOutcome) (cancelled : Bool) :
    ((apply_transaction euid (pending_install_specs widgets.pending)
          (pending_remove_specs widgets.pending) outcome).ok = false →
        (on_apply_button_clicked widgets euid outcome cancelled).pending = widgets.pending) ∧
    ((on_apply_button_clicked widgets euid outcome cancelled).pending ≠ widgets.pending →
        (apply_transaction euid (pending_install_specs widgets.pending)
            (pending_remove_specs widgets.pending) outcome).ok = true ∧
          (on_apply_button_clicked widgets euid outcome cancelled).pending = [] ∧
          cancelled = false) := by
  unfold on_apply_button_clicked
  by_cases hemp : widgets.pending.isEmpty
  · simp [hemp]
  · by_cases hok : (apply_transaction euid (pending_install_specs widgets.pending)
        (pending_remove_specs widgets.pending) outcome).ok
    · cases cancelled <;> simp [hemp, hok]
    · cases cancelled <;> simp [hemp, hok]

theorem apply_failure_preserves_pending_witness :
    (apply_transaction 1000
        (pending_install_specs [⟨PendingActionType.INSTALL, "bash-5.2-1.x86_64"⟩])
        (pending_remove_specs [⟨PendingActionType.INSTALL, "bash-5.2-1.x86_64"⟩])
        ⟨false, [], ["bash"], true, 0, []⟩).ok = false ∧
      (on_apply_button_clicked ⟨[⟨PendingActionType.INSTALL, "bash-5.2-1.x86_64"⟩]⟩ 1000
          ⟨false, [], ["bash"], true, 0, []⟩ false).pending =
        [⟨PendingActionType.INSTALL, "bash-5.2-1.x86_64"⟩] :=
  ⟨by decide,
    (apply_failure_preserves_pending ⟨[⟨PendingActionType.INSTALL, "bash-5.2-1.x86_64"⟩]⟩
        1000 ⟨false, [], ["bash"], true, 0, []⟩ false).1 (by decide)⟩

theorem cache_key_data (d e : Bool) (t : String) :
    (cache_key_for d e t).data =
      (if d then "desc:" else "name:").data ++
        ((if e then "exact:" else "contains:").data ++ t.data) := by
  cases d <;> cases e <;> simp [cache_key_for]

/-- C7: the search-cache key determines the two mode flags and the
literal term (injectivity, with no case folding or trimming involved),
and consequently a result stored under `(desc=false, exact=false,
"bash")` is not found when looking up `(desc=true, exact=false,
"bash")`. -/
theorem cache_key_injective_and_mode_miss :
    (∀ (d1 e1 : Bool) (t1 : String) (d2 e2 : Bool) (t2 : String),
        cache_key_for d1 e1 t1 = cache_key_for d2 e2 t2 →
          d1 = d2 ∧ e1 = e2 ∧ t1 = t2) ∧
    (∀ value : List String,
        cache_lookup (cache_store [] (cache_key_for false false "bash") value)
          (cache_key_for true false "bash") = none) := by
  constructor
  · intro d1 e1 t1 d2 e2 t2 h
    have hdata := congrArg String.data h
    cases d1 <;> cases e1 <;> cases d2 <;> cases e2 <;>
      simp [cache_key_data] at hdata <;>
      exact ⟨rfl, rfl, String.ext hdata⟩
  · intro value
    have hb : ((cache_key_for false false "bash") == (cache_key_for true false "bash")) =
        false := by decide
    simp [cache_store, cache_lookup, List.find?, hb]

theorem cache_key_injective_and_mode_miss_witness :
    (false = false ∧ false = false ∧ "bash" = "bash") ∧
      cache_lookup (cache_store [] (cache_key_for false false "bash") ["bash-5.2-1.x86_64"])
        (cache_key_for true false "bash") = none :=
  ⟨cache_key_injective_and_mode_miss.1 false false "bash" false false "bash" (by rfl),
    cache_key_injective_and_mode_miss.2 ["bash-5.2-1.x86_64"]⟩

/-- C8: in name-only mode, every result of the exact-match query is also
a result of the contains-mode query for the same term: an exact name
match is in particular a substring match. -/
theorem exact_results_subset_contains_results (available : List Package)
    (pattern : String) (x : String)
    (hx : x ∈ search_available_packages available false true pattern) :
    x ∈ search_available_packages available false false pattern := by
  simp [search_available_packages] at hx ⊢
  obtain ⟨pkg, ⟨hmem, hname⟩, hxe⟩ := hx
  exact ⟨pkg, ⟨hmem, by rw [hname]⟩, hxe⟩

theorem exact_results_subset_contains_results_witness :
    "bash-5.2-1.x86_64" ∈
      search_available_packages
        [⟨"bash", "bash-5.2-1.x86_64", "The GNU Bourne Again shell"⟩,
          ⟨"bash-completion", "bash-completion-2.11-1.noarch", "Completions"⟩]
        false false "bash" :=
  exact_results_subset_contains_results
    [⟨"bash", "bash-5.2-1.x86_64", "The GNU Bourne Again shell"⟩,
      ⟨"bash-completion", "bash-completion-2.11-1.noarch", "Completions"⟩]
    "bash" "bash-5.2-1.x86_64" (by decide)

/-- Name-only characterization of the description+exact search branch
(the lowered description is computed by the source but never consulted
by the exact-match condition). -/
theorem search_desc_exact_eq (available : List Package) (pattern : String) :
    search_available_packages available true true pattern =
      (available.filter (fun pkg => tolower_string pkg.name == tolower_string pattern)).map
        (fun pkg => pkg.nevra) := rfl

/-- C9: with both flags set, the search returns exactly the available
packages whose lowercased name equals the lowercased term (so matching
is case-insensitive), and the result is invariant under arbitrary
rewrites of every package description: descriptions are never
consulted. -/
theorem desc_exact_mode_is_name_only (available : List Package) (pattern : String) :
    search_available_packages available true true pattern =
      (available.filter (fun pkg => tolower_string pkg.name == tolower_string pattern)).map
        (fun pkg => pkg.nevra) ∧
    (∀ g : Package → String,
        search_available_packages
            (available.map (fun pkg => { pkg with description := g pkg })) true true pattern =
          search_available_packages available true true pattern) := by
  refine ⟨search_desc_exact_eq available pattern, ?_⟩
  intro g
  rw [search_desc_exact_eq, search_desc_exact_eq, List.filter_map, List.map_map]
  rfl

end DnfUi
